import Mathlib

/-!
Shallow embedding of the service-mesh core of the risk-monitor repository:
the circuit breaker, gRPC client base and inter-service client manager
(src/risk_monitor/infrastructure/grpc_clients.py) and the configuration
service client (src/risk_monitor/infrastructure/configuration_client.py).
The service-discovery module is not part of the sources, so the pieces of
it that the claims need are modelled from the specification, with doc
comments saying so.  Python floats carrying wall-clock times are modelled
as rationals; mutation is modelled by explicit state passing.
-/

/-- Circuit breaker states; the source uses the strings CLOSED, OPEN and
HALF_OPEN stored in the field named state. -/
inductive CBState where
  | CLOSED
  | OPEN
  | HALF_OPEN
deriving DecidableEq, Repr

/-- State of CircuitBreaker (grpc_clients.py lines 87-124). -/
structure CircuitBreaker where
  failure_threshold : Nat
  timeout : ℚ
  failure_count : Nat
  last_failure_time : ℚ
  state : CBState
deriving DecidableEq, Repr

/-- CircuitBreaker.__init__: failure_count 0, last_failure_time 0, CLOSED. -/
def CircuitBreaker.make (failure_threshold : Nat) (timeout : ℚ) : CircuitBreaker :=
  ⟨failure_threshold, timeout, 0, 0, CBState.CLOSED⟩

/-- The default constructor arguments: threshold 5, timeout 60 seconds. -/
def defaultCircuitBreaker : CircuitBreaker := CircuitBreaker.make 5 60

/-- CircuitBreaker.can_execute, with the wall-clock value of time.time()
passed in as t.  Returns the boolean result together with the updated
breaker (the OPEN branch mutates state to HALF_OPEN when the elapsed time
strictly exceeds the timeout). -/
def CircuitBreaker.can_execute (cb : CircuitBreaker) (t : ℚ) : Bool × CircuitBreaker :=
  match cb.state with
  | CBState.CLOSED => (true, cb)
  | CBState.OPEN =>
      if t - cb.last_failure_time > cb.timeout then
        (true, { cb with state := CBState.HALF_OPEN })
      else
        (false, cb)
  | CBState.HALF_OPEN => (true, cb)

/-- CircuitBreaker.on_success: reset failure_count to 0 and force CLOSED. -/
def CircuitBreaker.on_success (cb : CircuitBreaker) : CircuitBreaker :=
  { cb with failure_count := 0, state := CBState.CLOSED }

/-- CircuitBreaker.on_failure, with the wall-clock value of time.time()
passed in as t: increment failure_count, record t, and move to OPEN once
the incremented count reaches the threshold. -/
def CircuitBreaker.on_failure (cb : CircuitBreaker) (t : ℚ) : CircuitBreaker :=
  let c := cb.failure_count + 1
  { cb with
      failure_count := c
      last_failure_time := t
      state := if cb.failure_threshold ≤ c then CBState.OPEN else cb.state }

/-- One externally observable breaker interaction, each carrying the
wall-clock time at which it happens where the source reads time.time(). -/
inductive CBEvent where
  | canExec (t : ℚ)
  | success
  | failure (t : ℚ)

/-- Effect of one interaction on the breaker state. -/
def cbStep (cb : CircuitBreaker) (e : CBEvent) : CircuitBreaker :=
  match e with
  | CBEvent.canExec t => (cb.can_execute t).2
  | CBEvent.success => cb.on_success
  | CBEvent.failure t => cb.on_failure t

/-- Effect of a whole interaction sequence. -/
def cbRun (cb : CircuitBreaker) (es : List CBEvent) : CircuitBreaker :=
  es.foldl cbStep cb

/-- Lookup in an association list keyed by strings; models a Python dict
read restricted to the keys actually present. -/
def assocFind {α : Type} : List (String × α) → String → Option α
  | [], _ => none
  | (k, v) :: rest, key => if k = key then some v else assocFind rest key

/-- Update of an association list keyed by strings; models a Python dict
assignment: replace the binding when the key is present, append otherwise. -/
def assocSet {α : Type} : List (String × α) → String → α → List (String × α)
  | [], key, v => [(key, v)]
  | (k, w) :: rest, key, v =>
      if k = key then (key, v) :: rest else (k, w) :: assocSet rest key v

/-- The class-level channel cache BaseGrpcClient._channels, keyed by the
address string "host:port".  Channel objects are modelled by numeric
identities, with nextId the identity the next created channel receives, so
that identity equality of shared channels is expressible. -/
structure ChannelPool where
  entries : List (String × Nat)
  nextId : Nat
deriving Repr

/-- The channel-pooling part of BaseGrpcClient.connect (lines 149-172):
reuse the pooled channel for the address when present, otherwise create a
new channel and store it in the pool.  Returns the channel held by the
client together with the updated pool. -/
def ChannelPool.connectChannel (p : ChannelPool) (addr : String) : Nat × ChannelPool :=
  match assocFind p.entries addr with
  | some ch => (ch, p)
  | none => (p.nextId, ⟨p.entries ++ [(addr, p.nextId)], p.nextId + 1⟩)

/-- Bytewise matching of a candidate lead of a character list. -/
def leadMatch : List Char → List Char → Bool
  | [], _ => true
  | _ :: _, [] => false
  | a :: as, b :: bs => a == b && leadMatch as bs

/-- Substring search on character lists: does the needle occur anywhere? -/
def subMatch (needle : List Char) : List Char → Bool
  | [] => leadMatch needle []
  | c :: t => leadMatch needle (c :: t) || subMatch needle t

/-- Python substring containment, needle in haystack. -/
def strContains (hay needle : String) : Bool := subMatch needle.data hay.data

/-- ASCII lower-casing of one character, as str.lower does on the ASCII
error messages the source classifies. -/
def lowChar (c : Char) : Char :=
  if 'A' ≤ c && c ≤ 'Z' then Char.ofNat (c.toNat + 32) else c

/-- ASCII lower-casing of a string. -/
def lowerStr (s : String) : String := s.map lowChar

/-- Per-client mutable counters of BaseGrpcClient touched by _make_call:
the circuit breaker, _call_count and _error_count. -/
structure CallState where
  cb : CircuitBreaker
  call_count : Nat
  error_count : Nat
deriving Repr

/-- Result of one _make_call: the returned value or raised error message,
the updated client state, and whether _execute_call was invoked. -/
structure CallOutcome (α : Type) where
  result : Except String α
  st : CallState
  executed : Bool

/-- BaseGrpcClient._make_call (lines 220-254).  tGate is the time.time()
value read inside can_execute and tFail the one read inside on_failure.
The abstract _execute_call outcome is passed in as exec: an ok response or
the string rendering of the exception it raises.  Tracing span bookkeeping
has no observable effect and is not modelled. -/
def make_call {α : Type} (tGate tFail : ℚ) (s : CallState) (exec : Except String α) :
    CallOutcome α :=
  let gate := s.cb.can_execute tGate
  if gate.1 then
    let s1 : CallState := ⟨gate.2, s.call_count + 1, s.error_count⟩
    match exec with
    | Except.ok r => ⟨Except.ok r, { s1 with cb := s1.cb.on_success }, true⟩
    | Except.error e =>
        let s2 : CallState := { s1 with cb := s1.cb.on_failure tFail,
                                        error_count := s1.error_count + 1 }
        let msg :=
          if strContains (lowerStr e) "timeout" then "Call timeout: " ++ e
          else if strContains (lowerStr e) "authentication" then
            "Authentication failed: " ++ e
          else "gRPC call failed: " ++ e
        ⟨Except.error msg, s2, true⟩
  else
    ⟨Except.error "Circuit breaker open", { s with cb := gate.2 }, false⟩

/-- Modelled from the spec: the ServiceInfo record of the service-discovery
module; service_discovery.py is not under the sources, only its importers
and tests are.  Fields follow spec section 3: name, version, host,
http_port, grpc_port, status, last_heartbeat. -/
structure ServiceInfo where
  name : String
  version : String
  host : String
  http_port : Nat
  grpc_port : Nat
  status : String
  last_heartbeat : ℚ
deriving DecidableEq, Repr

/-- Modelled from the spec: the staleness threshold of 5 minutes
(300 seconds) beyond which a heartbeat makes a registry record stale. -/
def STALENESS_THRESHOLD : ℚ := 300

/-- Modelled from the spec: discover_services scans the registry records,
optionally keeps only those whose name matches the requested service name,
and returns only records whose heartbeat age is within the staleness
threshold; records whose heartbeat age exceeds it are never returned.
Malformed records are already excluded from the input list, which holds
only successfully parsed records. -/
def discover_services (now : ℚ) (records : List ServiceInfo)
    (service_name : Option String) : List ServiceInfo :=
  records.filter (fun r =>
    (match service_name with
     | none => true
     | some n => r.name == n)
    && decide (now - r.last_heartbeat ≤ STALENESS_THRESHOLD))

/-- A registry record whose heartbeat is the current instant. -/
def freshRecord (now : ℚ) : ServiceInfo :=
  ⟨"fresh-service", "1.0.0", "fresh-host", 8081, 50052, "healthy", now⟩

/-- A registry record whose heartbeat is ten minutes (600 seconds) old. -/
def staleRecord (now : ℚ) : ServiceInfo :=
  ⟨"stale-service", "1.0.0", "stale-host", 8080, 50051, "healthy", now - 600⟩

/-- BaseGrpcClient.connect seen from its caller: it either succeeds or
raises ServiceCommunicationError with the message "Connection failed: "
followed by the rendering of the underlying exception (line 172).
probeErr carries that underlying rendering when the connection test
fails. -/
def clientConnect (probeErr : Option String) : Except String Unit :=
  match probeErr with
  | none => Except.ok ()
  | some m => Except.error ("Connection failed: " ++ m)

/-- InterServiceClientManager.get_trading_engine_client (lines 447-481) on
the path where a service discovery is configured, use_fallback is false and
no connected client is cached.  svc is what discovery returns for
"trading-system-engine"; probeErr is the underlying failure of the new
client connect attempt, if any.  The result carries the host and grpc
port of the connected client, or the message of the raised
ServiceCommunicationError. -/
def get_trading_engine_client (svc : Option ServiceInfo) (probeErr : Option String) :
    Except String (String × Nat) :=
  let attempt : Except String (String × Nat) :=
    match svc with
    | none => Except.error "Service not found: trading-system-engine"
    | some info =>
        match clientConnect probeErr with
        | Except.ok _ => Except.ok (info.host, info.grpc_port)
        | Except.error m => Except.error m
  match attempt with
  | Except.ok c => Except.ok c
  | Except.error e =>
      if strContains e "Service not found" then
        Except.error "Service not found: trading-system-engine"
      else
        Except.error ("Connection failed: " ++ e)

/-- A concrete registry record for the trading engine service. -/
def engineInstance : ServiceInfo :=
  ⟨"trading-system-engine", "1.0.0", "engine-host", 8080, 50051, "healthy", 0⟩

/-- The VALID_CONFIG_TYPES set of configuration_client.py. -/
def VALID_CONFIG_TYPES : List String := ["string", "number", "boolean", "json"]

/-- An ASCII letter, the character class a-zA-Z of the key regex. -/
def isLetterChar (c : Char) : Bool :=
  ('a' ≤ c && c ≤ 'z') || ('A' ≤ c && c ≤ 'Z')

/-- A character of the class a-zA-Z0-9_ of the key regex. -/
def isKeyChar (c : Char) : Bool :=
  isLetterChar c || ('0' ≤ c && c ≤ '9') || c == '_'

/-- One dot-separated segment matches when it starts with a letter followed
by letters, digits or underscores. -/
def segOk : List Char → Bool
  | [] => false
  | c :: rest => isLetterChar c && rest.all isKeyChar

/-- Split a character list at every dot, keeping empty segments, so that
the number of segments is always one more than the number of dots. -/
def splitDots : List Char → List (List Char)
  | [] => [[]]
  | c :: rest =>
      if c = '.' then [] :: splitDots rest
      else
        match splitDots rest with
        | [] => [[c]]
        | s :: ss => (c :: s) :: ss

/-- Drop one trailing newline if present; the Python regex anchor at the
end of CONFIG_KEY_PATTERN_REGEX also matches just before a final
newline, so re.match accepts a key with one trailing newline whose body
matches. -/
def stripNl (cs : List Char) : List Char :=
  match cs.getLast? with
  | some c => if c = '\n' then cs.dropLast else cs
  | none => cs

/-- re.match of CONFIG_KEY_PATTERN_REGEX against the whole key: every
dot-separated segment is a letter followed by letters, digits or
underscores, allowing one trailing newline. -/
def key_regex_match (key : String) : Bool :=
  (splitDots (stripNl key.data)).all segOk

/-- The ConfigurationValue dataclass of configuration_client.py.  The
__post_init__ stamping of a wall-clock default for last_updated is not
modelled; the field stays optional. -/
structure ConfigurationValue where
  key : String
  value : String
  type : String
  environment : Option String
  last_updated : Option String
  version : Option String
deriving DecidableEq, Repr

/-- ConfigurationValue.validate (lines 44-61): reject an empty key, a key
not matching the key regex, an empty value, and a type outside
VALID_CONFIG_TYPES. -/
def ConfigurationValue.validate (cv : ConfigurationValue) : Bool :=
  if cv.key = "" then false
  else if !(key_regex_match cv.key) then false
  else if cv.value = "" then false
  else if !(VALID_CONFIG_TYPES.contains cv.type) then false
  else true

/-- The mutable state of ConfigurationServiceClient touched by
get_configuration: connection flag, value cache, per-key expiry times,
hit and miss counters and the default TTL (300 seconds at construction). -/
structure ConfigClientState where
  connected : Bool
  cache : List (String × ConfigurationValue)
  cache_ttl : List (String × ℚ)
  cache_hits : Nat
  cache_misses : Nat
  default_cache_ttl : ℚ
deriving Repr

/-- ConfigurationServiceClient._is_cache_valid (lines 308-312): a cached
entry is valid while the current time is strictly below its expiry. -/
def is_cache_valid (now : ℚ) (st : ConfigClientState) (cacheKey : String) : Bool :=
  match assocFind st.cache_ttl cacheKey with
  | none => false
  | some exp => decide (now < exp)

/-- A successfully parsed remote configuration response that passed the
required-fields check: key, value and type present, the rest optional. -/
structure RemoteConfig where
  key : String
  value : String
  type : String
  environment : Option String
  last_updated : Option String
  version : Option String
deriving DecidableEq, Repr

/-- The cache-miss branch of get_configuration: count the miss, then either
propagate the remote failure or build the ConfigurationValue, cache it
with expiry now plus the default TTL, and return it.  The returned flag
records that the remote fetch was issued. -/
def config_fetch (now : ℚ) (cacheKey : String) (st : ConfigClientState)
    (remote : Except String RemoteConfig) :
    Except String ConfigurationValue × ConfigClientState × Bool :=
  let st1 := { st with cache_misses := st.cache_misses + 1 }
  match remote with
  | Except.error e => (Except.error e, st1, true)
  | Except.ok d =>
      let cv : ConfigurationValue :=
        ⟨d.key, d.value, d.type, d.environment, d.last_updated, d.version⟩
      (Except.ok cv,
       { st1 with
           cache := assocSet st1.cache cacheKey cv
           cache_ttl := assocSet st1.cache_ttl cacheKey (now + st1.default_cache_ttl) },
       true)

/-- ConfigurationServiceClient.get_configuration (lines 195-256), with the
wall-clock time passed as now and the outcome the remote fetch would have
as remote.  settingsEnv is self.settings.environment.  Returns the value
or raised error message, the updated state, and whether the remote fetch
was issued. -/
def get_configuration (now : ℚ) (key : String) (environment : Option String)
    (settingsEnv : String) (st : ConfigClientState)
    (remote : Except String RemoteConfig) :
    Except String ConfigurationValue × ConfigClientState × Bool :=
  if !st.connected then (Except.error "Client not connected", st, false)
  else if key = "" then
    (Except.error "Configuration key must be a non-empty string", st, false)
  else if !(key_regex_match key) then
    (Except.error ("Invalid configuration key format: " ++ key), st, false)
  else
    let cacheKey := key ++ ":" ++ environment.getD settingsEnv
    match assocFind st.cache cacheKey, is_cache_valid now st cacheKey with
    | some cv, true =>
        (Except.ok cv, { st with cache_hits := st.cache_hits + 1 }, false)
    | some _, false => config_fetch now cacheKey st remote
    | none, _ => config_fetch now cacheKey st remote

/-- A breaker that is OPEN or HALF_OPEN only when the failure count has
reached the threshold keeps that property across one interaction. -/
theorem breakerInv_step (cb : CircuitBreaker) (e : CBEvent)
    (h : (cb.state = CBState.OPEN ∨ cb.state = CBState.HALF_OPEN) →
      cb.failure_threshold ≤ cb.failure_count) :
    ((cbStep cb e).state = CBState.OPEN ∨ (cbStep cb e).state = CBState.HALF_OPEN) →
      (cbStep cb e).failure_threshold ≤ (cbStep cb e).failure_count := by
  cases e with
  | canExec t =>
      cases hs : cb.state with
      | CLOSED => simp [cbStep, CircuitBreaker.can_execute, hs]
      | OPEN =>
          by_cases hc : t - cb.last_failure_time > cb.timeout
          · intro _
            simpa [cbStep, CircuitBreaker.can_execute, hs, hc] using h (Or.inl hs)
          · intro _
            simpa [cbStep, CircuitBreaker.can_execute, hs, hc] using h (Or.inl hs)
      | HALF_OPEN =>
          intro _
          simpa [cbStep, CircuitBreaker.can_execute, hs] using h (Or.inr hs)
  | success => simp [cbStep, CircuitBreaker.on_success]
  | failure t =>
      intro h2
      simp only [cbStep, CircuitBreaker.on_failure] at h2 ⊢
      by_cases hth : cb.failure_threshold ≤ cb.failure_count + 1
      · exact hth
      · simp only [if_neg hth] at h2
        have := h h2
        omega

/-- The threshold property of breakerInv_step holds along any interaction
sequence. -/
theorem breakerInv_run (cb : CircuitBreaker) (es : List CBEvent)
    (h : (cb.state = CBState.OPEN ∨ cb.state = CBState.HALF_OPEN) →
      cb.failure_threshold ≤ cb.failure_count) :
    ((cbRun cb es).state = CBState.OPEN ∨ (cbRun cb es).state = CBState.HALF_OPEN) →
      (cbRun cb es).failure_threshold ≤ (cbRun cb es).failure_count := by
  induction es generalizing cb with
  | nil => simpa [cbRun] using h
  | cons e es ih =>
      have h1 := breakerInv_step cb e h
      simpa [cbRun, List.foldl] using ih (cbStep cb e) h1

/-- C1: with failure_threshold 5, from CLOSED with failure_count 0, four
consecutive on_failure calls leave the breaker CLOSED and can_execute true;
the fifth on_failure moves it to OPEN, and can_execute is false while the
cooldown since the fifth failure has not elapsed. -/
theorem claim_C1_threshold_five (cb : CircuitBreaker) (t1 t2 t3 t4 t5 tq tr : ℚ)
    (hth : cb.failure_threshold = 5) (hst : cb.state = CBState.CLOSED)
    (hfc : cb.failure_count = 0) (hcool : tr - t5 ≤ cb.timeout) :
    ((((cb.on_failure t1).on_failure t2).on_failure t3).on_failure t4).state =
        CBState.CLOSED ∧
    (((((cb.on_failure t1).on_failure t2).on_failure t3).on_failure t4).can_execute tq).1 =
        true ∧
    (((((cb.on_failure t1).on_failure t2).on_failure t3).on_failure t4).on_failure t5).state =
        CBState.OPEN ∧
    ((((((cb.on_failure t1).on_failure t2).on_failure t3).on_failure t4).on_failure
        t5).can_execute tr).1 = false := by
  obtain ⟨th, tmo, fc, lf, st⟩ := cb
  simp only at hth hst hfc hcool
  subst hth hst hfc
  refine ⟨?_, ?_, ?_, ?_⟩
  · simp [CircuitBreaker.on_failure]
  · simp [CircuitBreaker.on_failure, CircuitBreaker.can_execute]
  · simp [CircuitBreaker.on_failure]
  · simp [CircuitBreaker.on_failure, CircuitBreaker.can_execute, not_lt.mpr hcool]

/-- Witness for C1 at the default breaker and concrete times. -/
theorem claim_C1_threshold_five_wit :
    (((((CircuitBreaker.make 5 60).on_failure 1).on_failure 2).on_failure 3).on_failure
        4).state = CBState.CLOSED ∧
    ((((((CircuitBreaker.make 5 60).on_failure 1).on_failure 2).on_failure 3).on_failure
        4).can_execute 5).1 = true ∧
    ((((((CircuitBreaker.make 5 60).on_failure 1).on_failure 2).on_failure 3).on_failure
        4).on_failure 6).state = CBState.OPEN ∧
    (((((((CircuitBreaker.make 5 60).on_failure 1).on_failure 2).on_failure 3).on_failure
        4).on_failure 6).can_execute 10).1 = false :=
  claim_C1_threshold_five (CircuitBreaker.make 5 60) 1 2 3 4 6 5 10 rfl rfl rfl
    (by norm_num [CircuitBreaker.make])

/-- C2 counterexample: a breaker OPEN since time 0 with timeout 60, probed
at time 61, transitions to HALF_OPEN and returns true; a second
can_execute while still HALF_OPEN returns true again, so the claim that
additional calls before the probe outcome do not permit further calls is
false on the code. -/
theorem claim_C2_counterexample :
    ((CircuitBreaker.mk 5 60 5 0 CBState.OPEN).can_execute 61).1 = true ∧
    ((CircuitBreaker.mk 5 60 5 0 CBState.OPEN).can_execute 61).2.state =
      CBState.HALF_OPEN ∧
    ((((CircuitBreaker.mk 5 60 5 0 CBState.OPEN).can_execute 61).2).can_execute 61).1 =
      true := by
  refine ⟨?_, ?_, ?_⟩ <;> norm_num [CircuitBreaker.can_execute]

/-- C2 amended: once the cooldown has strictly elapsed, the first
can_execute returns true and moves OPEN to HALF_OPEN; while HALF_OPEN
every further can_execute also returns true and leaves the state
HALF_OPEN (the code does not restrict HALF_OPEN to a single probe), and
an on_success resets the breaker to CLOSED with failure_count 0. -/
theorem claim_C2_half_open_probe (cb : CircuitBreaker) (t u : ℚ)
    (hst : cb.state = CBState.OPEN) (hel : t - cb.last_failure_time > cb.timeout) :
    (cb.can_execute t).1 = true ∧
    (cb.can_execute t).2.state = CBState.HALF_OPEN ∧
    ((cb.can_execute t).2.can_execute u).1 = true ∧
    ((cb.can_execute t).2.can_execute u).2.state = CBState.HALF_OPEN ∧
    ((cb.can_execute t).2.on_success).state = CBState.CLOSED ∧
    ((cb.can_execute t).2.on_success).failure_count = 0 := by
  refine ⟨?_, ?_, ?_, ?_, ?_, ?_⟩ <;>
    simp [CircuitBreaker.can_execute, CircuitBreaker.on_success, hst, hel]

/-- Witness for the amended C2 at a concrete breaker and times. -/
theorem claim_C2_half_open_probe_wit :
    (((CircuitBreaker.mk 5 60 5 0 CBState.OPEN).can_execute 100).1 = true ∧
    ((CircuitBreaker.mk 5 60 5 0 CBState.OPEN).can_execute 100).2.state =
      CBState.HALF_OPEN ∧
    (((CircuitBreaker.mk 5 60 5 0 CBState.OPEN).can_execute 100).2.can_execute 101).1 =
      true ∧
    (((CircuitBreaker.mk 5 60 5 0 CBState.OPEN).can_execute 100).2.can_execute
      101).2.state = CBState.HALF_OPEN ∧
    (((CircuitBreaker.mk 5 60 5 0 CBState.OPEN).can_execute 100).2.on_success).state =
      CBState.CLOSED ∧
    (((CircuitBreaker.mk 5 60 5 0 CBState.OPEN).can_execute
      100).2.on_success).failure_count = 0) :=
  claim_C2_half_open_probe (CircuitBreaker.mk 5 60 5 0 CBState.OPEN) 100 101 rfl
    (by norm_num)

/-- C4 counterexample: a breaker OPEN since time 0 with timeout 60, probed
at time exactly 60, has elapsed time equal to the cooldown, yet
can_execute returns false and the state stays OPEN, refuting the claim
that the transition happens exactly when elapsed is greater or equal. -/
theorem claim_C4_boundary_counterexample :
    (60 : ℚ) - (CircuitBreaker.mk 5 60 5 0 CBState.OPEN).last_failure_time ≥
      (CircuitBreaker.mk 5 60 5 0 CBState.OPEN).timeout ∧
    ((CircuitBreaker.mk 5 60 5 0 CBState.OPEN).can_execute 60).1 = false ∧
    ((CircuitBreaker.mk 5 60 5 0 CBState.OPEN).can_execute 60).2.state =
      CBState.OPEN := by
  refine ⟨by norm_num, ?_, ?_⟩ <;> norm_num [CircuitBreaker.can_execute]

/-- C4 amended: for an OPEN breaker, can_execute returns true and moves the
state to HALF_OPEN exactly when the elapsed time since last_failure_time
is strictly greater than the cooldown timeout; when the elapsed time is
smaller or equal, it returns false and the state remains OPEN. -/
theorem claim_C4_strict_cooldown (cb : CircuitBreaker) (t : ℚ)
    (hst : cb.state = CBState.OPEN) :
    (cb.timeout < t - cb.last_failure_time →
       (cb.can_execute t).1 = true ∧ (cb.can_execute t).2.state = CBState.HALF_OPEN) ∧
    (t - cb.last_failure_time ≤ cb.timeout →
       (cb.can_execute t).1 = false ∧ (cb.can_execute t).2.state = CBState.OPEN) := by
  constructor
  · intro h
    constructor <;> simp [CircuitBreaker.can_execute, hst, h]
  · intro h
    have h2 : ¬ (cb.timeout < t - cb.last_failure_time) := not_lt.mpr h
    constructor <;> simp [CircuitBreaker.can_execute, hst, h2]

/-- Witness for the amended C4 at a concrete breaker and times on both
sides of the cooldown. -/
theorem claim_C4_strict_cooldown_wit :
    (((CircuitBreaker.mk 5 60 5 0 CBState.OPEN).timeout <
        (70 : ℚ) - (CircuitBreaker.mk 5 60 5 0 CBState.OPEN).last_failure_time →
       ((CircuitBreaker.mk 5 60 5 0 CBState.OPEN).can_execute 70).1 = true ∧
       ((CircuitBreaker.mk 5 60 5 0 CBState.OPEN).can_execute 70).2.state =
         CBState.HALF_OPEN) ∧
    ((70 : ℚ) - (CircuitBreaker.mk 5 60 5 0 CBState.OPEN).last_failure_time ≤
        (CircuitBreaker.mk 5 60 5 0 CBState.OPEN).timeout →
       ((CircuitBreaker.mk 5 60 5 0 CBState.OPEN).can_execute 70).1 = false ∧
       ((CircuitBreaker.mk 5 60 5 0 CBState.OPEN).can_execute 70).2.state =
         CBState.OPEN)) :=
  claim_C4_strict_cooldown (CircuitBreaker.mk 5 60 5 0 CBState.OPEN) 70 rfl

/-- C10: along every interaction sequence from a CLOSED breaker with zero
failures, whenever the reached state is OPEN or HALF_OPEN the failure
count has reached the threshold; consequently one on_failure from a
reached HALF_OPEN state always returns the breaker to OPEN. -/
theorem claim_C10_open_invariant (cb0 : CircuitBreaker) (es : List CBEvent) (t : ℚ)
    (hst : cb0.state = CBState.CLOSED) (hfc : cb0.failure_count = 0) :
    (((cbRun cb0 es).state = CBState.OPEN ∨ (cbRun cb0 es).state = CBState.HALF_OPEN) →
       (cbRun cb0 es).failure_threshold ≤ (cbRun cb0 es).failure_count) ∧
    ((cbRun cb0 es).state = CBState.HALF_OPEN →
       ((cbRun cb0 es).on_failure t).state = CBState.OPEN) := by
  have hinv := breakerInv_run cb0 es (by
    intro hx
    rw [hst] at hx
    rcases hx with h | h <;> simp at h)
  refine ⟨hinv, ?_⟩
  intro hho
  have hle := hinv (Or.inr hho)
  have hle1 : (cbRun cb0 es).failure_threshold ≤ (cbRun cb0 es).failure_count + 1 := by
    omega
  simp [CircuitBreaker.on_failure, hle1]

/-- Witness for C10: five failures then an allowed probe reach HALF_OPEN
from the default breaker; the invariant and the relapse to OPEN hold
there. -/
theorem claim_C10_open_invariant_wit :
    (((cbRun (CircuitBreaker.make 5 60)
        [CBEvent.failure 1, CBEvent.failure 2, CBEvent.failure 3, CBEvent.failure 4,
         CBEvent.failure 5, CBEvent.canExec 66]).state = CBState.OPEN ∨
      (cbRun (CircuitBreaker.make 5 60)
        [CBEvent.failure 1, CBEvent.failure 2, CBEvent.failure 3, CBEvent.failure 4,
         CBEvent.failure 5, CBEvent.canExec 66]).state = CBState.HALF_OPEN) →
       (cbRun (CircuitBreaker.make 5 60)
        [CBEvent.failure 1, CBEvent.failure 2, CBEvent.failure 3, CBEvent.failure 4,
         CBEvent.failure 5, CBEvent.canExec 66]).failure_threshold ≤
       (cbRun (CircuitBreaker.make 5 60)
        [CBEvent.failure 1, CBEvent.failure 2, CBEvent.failure 3, CBEvent.failure 4,
         CBEvent.failure 5, CBEvent.canExec 66]).failure_count) ∧
    ((cbRun (CircuitBreaker.make 5 60)
        [CBEvent.failure 1, CBEvent.failure 2, CBEvent.failure 3, CBEvent.failure 4,
         CBEvent.failure 5, CBEvent.canExec 66]).state = CBState.HALF_OPEN →
       ((cbRun (CircuitBreaker.make 5 60)
        [CBEvent.failure 1, CBEvent.failure 2, CBEvent.failure 3, CBEvent.failure 4,
         CBEvent.failure 5, CBEvent.canExec 66]).on_failure 70).state = CBState.OPEN) :=
  claim_C10_open_invariant (CircuitBreaker.make 5 60)
    [CBEvent.failure 1, CBEvent.failure 2, CBEvent.failure 3, CBEvent.failure 4,
     CBEvent.failure 5, CBEvent.canExec 66] 70 rfl rfl

/-- When can_execute answers false it leaves the breaker unchanged. -/
theorem can_execute_false_id (cb : CircuitBreaker) (t : ℚ)
    (h : (cb.can_execute t).1 = false) : (cb.can_execute t).2 = cb := by
  cases hs : cb.state with
  | CLOSED => simp [CircuitBreaker.can_execute, hs] at h
  | OPEN =>
      by_cases hc : t - cb.last_failure_time > cb.timeout
      · simp [CircuitBreaker.can_execute, hs, hc] at h
      · simp [CircuitBreaker.can_execute, hs, hc]
  | HALF_OPEN => simp [CircuitBreaker.can_execute, hs] at h

/-- C5: when the circuit breaker does not permit execution, _make_call
raises ServiceCommunicationError with message "Circuit breaker open",
never invokes _execute_call, and leaves the client state unchanged. -/
theorem claim_C5_gate_fail_fast {α : Type} (tGate tFail : ℚ) (s : CallState)
    (exec : Except String α) (h : (s.cb.can_execute tGate).1 = false) :
    (make_call tGate tFail s exec).result = Except.error "Circuit breaker open" ∧
    (make_call tGate tFail s exec).executed = false ∧
    (make_call tGate tFail s exec).st = s := by
  have hid := can_execute_false_id s.cb tGate h
  refine ⟨?_, ?_, ?_⟩ <;> simp [make_call, h, hid]

/-- Witness for C5: an OPEN breaker inside its cooldown rejects a call. -/
theorem claim_C5_gate_fail_fast_wit :
    (make_call 10 10 ⟨CircuitBreaker.mk 5 60 5 0 CBState.OPEN, 7, 3⟩
        (Except.ok () : Except String Unit)).result =
      Except.error "Circuit breaker open" ∧
    (make_call 10 10 ⟨CircuitBreaker.mk 5 60 5 0 CBState.OPEN, 7, 3⟩
        (Except.ok () : Except String Unit)).executed = false ∧
    (make_call 10 10 ⟨CircuitBreaker.mk 5 60 5 0 CBState.OPEN, 7, 3⟩
        (Except.ok () : Except String Unit)).st =
      ⟨CircuitBreaker.mk 5 60 5 0 CBState.OPEN, 7, 3⟩ :=
  claim_C5_gate_fail_fast 10 10 ⟨CircuitBreaker.mk 5 60 5 0 CBState.OPEN, 7, 3⟩
    (Except.ok ()) (by norm_num [CircuitBreaker.can_execute])

/-- C3: discovery never returns a record whose heartbeat age exceeds the
staleness threshold, and of a fresh record and a ten-minute-old record
only the fresh one is returned. -/
theorem claim_C3_discovery_staleness (now : ℚ) (records : List ServiceInfo)
    (service_name : Option String) (r : ServiceInfo)
    (hmem : r ∈ discover_services now records service_name) :
    now - r.last_heartbeat ≤ STALENESS_THRESHOLD ∧
    discover_services now [freshRecord now, staleRecord now] none = [freshRecord now] := by
  constructor
  · have hp := (List.mem_filter.mp hmem).2
    have hb := (Bool.and_eq_true _ _).mp hp
    exact of_decide_eq_true hb.2
  · have h1 : now - now ≤ (300 : ℚ) := by norm_num
    have h2 : ¬ (now - (now - 600) ≤ (300 : ℚ)) := by
      intro hx
      have : now - (now - 600) = (600 : ℚ) := by ring
      rw [this] at hx
      norm_num at hx
    simp [discover_services, freshRecord, staleRecord, STALENESS_THRESHOLD, h1, h2]
    linarith

/-- Witness for C3: the fresh record at time 0 is discovered and fresh. -/
theorem claim_C3_discovery_staleness_wit :
    (0 : ℚ) - (freshRecord 0).last_heartbeat ≤ STALENESS_THRESHOLD ∧
    discover_services 0 [freshRecord 0, staleRecord 0] none = [freshRecord 0] :=
  claim_C3_discovery_staleness 0 [freshRecord 0, staleRecord 0] none (freshRecord 0)
    (by simp [discover_services, freshRecord, STALENESS_THRESHOLD])

/-- A needle occurring at the head of the haystack occurs in it. -/
theorem subMatch_of_leadMatch (n h : List Char) (hl : leadMatch n h = true) :
    subMatch n h = true := by
  cases h with
  | nil => simpa [subMatch] using hl
  | cons c t => simp [subMatch, hl]

/-- C6 counterexample: discovery finds the trading engine but the client
connect fails with an underlying error whose text happens to contain
"Service not found"; the manager then raises the message
"Service not found: trading-system-engine", which does not contain
"Connection failed", so a connect failure is not always distinguishable
from a discovery miss by message. -/
theorem claim_C6_masking_counterexample :
    get_trading_engine_client (some engineInstance)
        (some "rpc probe said: Service not found") =
      Except.error "Service not found: trading-system-engine" ∧
    strContains "Service not found: trading-system-engine" "Connection failed" =
      false :=
  ⟨rfl, rfl⟩

/-- C6 amended: a discovery miss raises the message
"Service not found: trading-system-engine"; a connect failure raises a
message containing "Connection failed" provided the connect error text
does not itself contain "Service not found" (otherwise the manager
reclassifies it as a discovery miss). -/
theorem claim_C6_error_messages (pe : Option String) (info : ServiceInfo) (m : String)
    (hmask : strContains ("Connection failed: " ++ m) "Service not found" = false) :
    get_trading_engine_client none pe =
      Except.error "Service not found: trading-system-engine" ∧
    get_trading_engine_client (some info) (some m) =
      Except.error ("Connection failed: " ++ ("Connection failed: " ++ m)) ∧
    strContains ("Connection failed: " ++ ("Connection failed: " ++ m))
      "Connection failed" = true := by
  refine ⟨rfl, ?_, ?_⟩
  · simp [get_trading_engine_client, clientConnect, hmask]
  · have hl : leadMatch ("Connection failed".data)
        (("Connection failed: " ++ ("Connection failed: " ++ m)).data) = true := rfl
    exact subMatch_of_leadMatch _ _ hl

/-- Witness for the amended C6 with a plain connect failure. -/
theorem claim_C6_error_messages_wit :
    get_trading_engine_client none none =
      Except.error "Service not found: trading-system-engine" ∧
    get_trading_engine_client (some engineInstance) (some "connection refused") =
      Except.error ("Connection failed: " ++ ("Connection failed: " ++ "connection refused")) ∧
    strContains ("Connection failed: " ++ ("Connection failed: " ++ "connection refused"))
      "Connection failed" = true :=
  claim_C6_error_messages none engineInstance "connection refused" rfl

/-- A key that assocFind does not find is not among the keys. -/
theorem assocFind_none_not_mem {α : Type} (l : List (String × α)) (a : String)
    (h : assocFind l a = none) : a ∉ l.map Prod.fst := by
  induction l with
  | nil => simp
  | cons p rest ih =>
      obtain ⟨k, v⟩ := p
      by_cases hk : k = a
      · simp [assocFind, hk] at h
      · simp only [assocFind, if_neg hk] at h
        simp only [List.map_cons, List.mem_cons]
        intro hx
        rcases hx with hx | hx
        · exact hk hx.symm
        · exact ih h hx

/-- Appending a binding for an absent key makes assocFind return it. -/
theorem assocFind_append_self {α : Type} (l : List (String × α)) (a : String) (v : α)
    (h : assocFind l a = none) : assocFind (l ++ [(a, v)]) a = some v := by
  induction l with
  | nil => simp [assocFind]
  | cons p rest ih =>
      obtain ⟨k, w⟩ := p
      by_cases hk : k = a
      · simp [assocFind, hk] at h
      · simp only [assocFind, if_neg hk] at h
        simpa [assocFind, if_neg hk] using ih h

/-- After assocSet, assocFind on the set key returns the set value. -/
theorem assocFind_assocSet_self {α : Type} (l : List (String × α)) (k : String) (v : α) :
    assocFind (assocSet l k v) k = some v := by
  induction l with
  | nil => simp [assocSet, assocFind]
  | cons p rest ih =>
      obtain ⟨a, w⟩ := p
      by_cases ha : a = k
      · simp [assocSet, ha, assocFind]
      · simp [assocSet, ha, assocFind, ih]

/-- C7: connecting two clients with the same address yields the identical
pooled channel, the second connect leaves the pool unchanged, and the pool
keeps at most one channel per distinct address. -/
theorem claim_C7_channel_reuse (p : ChannelPool) (addr : String)
    (hnd : (p.entries.map Prod.fst).Nodup) :
    (p.connectChannel addr).1 = ((p.connectChannel addr).2.connectChannel addr).1 ∧
    ((p.connectChannel addr).2.connectChannel addr).2 = (p.connectChannel addr).2 ∧
    ((p.connectChannel addr).2.entries.map Prod.fst).Nodup := by
  cases h : assocFind p.entries addr with
  | some ch => simp [ChannelPool.connectChannel, h, hnd]
  | none =>
      have h2 : assocFind (p.entries ++ [(addr, p.nextId)]) addr = some p.nextId :=
        assocFind_append_self _ _ _ h
      have hnm := assocFind_none_not_mem _ _ h
      refine ⟨?_, ?_, ?_⟩
      · simp [ChannelPool.connectChannel, h, h2]
      · simp [ChannelPool.connectChannel, h, h2]
      · simp only [ChannelPool.connectChannel, h, List.map_append, List.map_cons,
          List.map_nil]
        rw [List.nodup_append]
        exact ⟨hnd, List.nodup_singleton _, by simpa using hnm⟩

/-- Witness for C7 from the empty pool. -/
theorem claim_C7_channel_reuse_wit :
    ((ChannelPool.mk [] 0).connectChannel "localhost:50051").1 =
      (((ChannelPool.mk [] 0).connectChannel "localhost:50051").2.connectChannel
        "localhost:50051").1 ∧
    (((ChannelPool.mk [] 0).connectChannel "localhost:50051").2.connectChannel
        "localhost:50051").2 =
      ((ChannelPool.mk [] 0).connectChannel "localhost:50051").2 ∧
    ((((ChannelPool.mk [] 0).connectChannel "localhost:50051").2.entries.map
        Prod.fst).Nodup) :=
  claim_C7_channel_reuse (ChannelPool.mk [] 0) "localhost:50051" (by simp)

/-- C8: from a connected state with no cached entry for the key, a
successful get_configuration issues the remote fetch and a second call for
the same key and environment before the TTL expires is served from the
cache without a remote fetch, counts one cache hit more, and returns the
identical value. -/
theorem claim_C8_cache_single_fetch (now1 now2 : ℚ) (key : String)
    (environment : Option String) (settingsEnv : String) (st : ConfigClientState)
    (d : RemoteConfig) (remote2 : Except String RemoteConfig)
    (hconn : st.connected = true) (hk0 : ¬ key = "")
    (hkm : key_regex_match key = true)
    (hmiss : assocFind st.cache (key ++ ":" ++ environment.getD settingsEnv) = none)
    (httl : now2 < now1 + st.default_cache_ttl) :
    (get_configuration now1 key environment settingsEnv st (Except.ok d)).1 =
      Except.ok ⟨d.key, d.value, d.type, d.environment, d.last_updated, d.version⟩ ∧
    (get_configuration now1 key environment settingsEnv st (Except.ok d)).2.2 = true ∧
    (get_configuration now2 key environment settingsEnv
        (get_configuration now1 key environment settingsEnv st (Except.ok d)).2.1
        remote2).1 =
      Except.ok ⟨d.key, d.value, d.type, d.environment, d.last_updated, d.version⟩ ∧
    (get_configuration now2 key environment settingsEnv
        (get_configuration now1 key environment settingsEnv st (Except.ok d)).2.1
        remote2).2.2 = false ∧
    (get_configuration now2 key environment settingsEnv
        (get_configuration now1 key environment settingsEnv st (Except.ok d)).2.1
        remote2).2.1.cache_hits =
      (get_configuration now1 key environment settingsEnv st (Except.ok d)).2.1.cache_hits
        + 1 := by
  have e1 : get_configuration now1 key environment settingsEnv st (Except.ok d) =
      (Except.ok ⟨d.key, d.value, d.type, d.environment, d.last_updated, d.version⟩,
       { st with
           cache_misses := st.cache_misses + 1
           cache := assocSet st.cache (key ++ ":" ++ environment.getD settingsEnv)
             ⟨d.key, d.value, d.type, d.environment, d.last_updated, d.version⟩
           cache_ttl := assocSet st.cache_ttl (key ++ ":" ++ environment.getD settingsEnv)
             (now1 + st.default_cache_ttl) },
       true) := by
    simp [get_configuration, hconn, hk0, hkm, hmiss, config_fetch]
  have hf2 : assocFind
      (assocSet st.cache (key ++ ":" ++ environment.getD settingsEnv)
        ⟨d.key, d.value, d.type, d.environment, d.last_updated, d.version⟩)
      (key ++ ":" ++ environment.getD settingsEnv) =
      some ⟨d.key, d.value, d.type, d.environment, d.last_updated, d.version⟩ :=
    assocFind_assocSet_self _ _ _
  have ht2 : assocFind
      (assocSet st.cache_ttl (key ++ ":" ++ environment.getD settingsEnv)
        (now1 + st.default_cache_ttl))
      (key ++ ":" ++ environment.getD settingsEnv) =
      some (now1 + st.default_cache_ttl) :=
    assocFind_assocSet_self _ _ _
  have hdec : decide (now2 < now1 + st.default_cache_ttl) = true := decide_eq_true httl
  refine ⟨?_, ?_, ?_, ?_, ?_⟩ <;>
    · rw [e1]
      try simp [get_configuration, is_cache_valid, hconn, hk0, hkm, hf2, ht2, hdec]

/-- Witness for C8 from a freshly connected client with an empty cache. -/
theorem claim_C8_cache_single_fetch_wit :
    (get_configuration 0 "app" none "dev" (ConfigClientState.mk true [] [] 0 0 300)
        (Except.ok (RemoteConfig.mk "app" "1" "string" none none none))).1 =
      Except.ok ⟨"app", "1", "string", none, none, none⟩ ∧
    (get_configuration 0 "app" none "dev" (ConfigClientState.mk true [] [] 0 0 300)
        (Except.ok (RemoteConfig.mk "app" "1" "string" none none none))).2.2 = true ∧
    (get_configuration 100 "app" none "dev"
        (get_configuration 0 "app" none "dev" (ConfigClientState.mk true [] [] 0 0 300)
          (Except.ok (RemoteConfig.mk "app" "1" "string" none none none))).2.1
        (Except.error "down")).1 =
      Except.ok ⟨"app", "1", "string", none, none, none⟩ ∧
    (get_configuration 100 "app" none "dev"
        (get_configuration 0 "app" none "dev" (ConfigClientState.mk true [] [] 0 0 300)
          (Except.ok (RemoteConfig.mk "app" "1" "string" none none none))).2.1
        (Except.error "down")).2.2 = false ∧
    (get_configuration 100 "app" none "dev"
        (get_configuration 0 "app" none "dev" (ConfigClientState.mk true [] [] 0 0 300)
          (Except.ok (RemoteConfig.mk "app" "1" "string" none none none))).2.1
        (Except.error "down")).2.1.cache_hits =
      (get_configuration 0 "app" none "dev" (ConfigClientState.mk true [] [] 0 0 300)
          (Except.ok (RemoteConfig.mk "app" "1" "string" none none none))).2.1.cache_hits
        + 1 :=
  claim_C8_cache_single_fetch 0 100 "app" none "dev"
    (ConfigClientState.mk true [] [] 0 0 300)
    (RemoteConfig.mk "app" "1" "string" none none none) (Except.error "down")
    rfl (by decide) rfl rfl (by norm_num)

/-- splitDots always yields at least one segment. -/
theorem splitDots_ne_nil (cs : List Char) : splitDots cs ≠ [] := by
  cases cs with
  | nil => simp [splitDots]
  | cons c t =>
      by_cases hc : c = '.'
      · simp [splitDots, hc]
      · cases h : splitDots t with
        | nil => simp [splitDots, hc, h]
        | cons s ss => simp [splitDots, hc, h]

/-- A dot is a hard separator: splitting around one concatenates the two
independent splits. -/
theorem splitDots_append_dot (a y : List Char) :
    splitDots (a ++ '.' :: y) = splitDots a ++ splitDots y := by
  induction a with
  | nil => simp [splitDots]
  | cons c a ih =>
      by_cases hc : c = '.'
      · simp [splitDots, hc, ih]
      · cases h : splitDots a with
        | nil => exact absurd h (splitDots_ne_nil a)
        | cons s ss =>
            have h2 : splitDots (a ++ '.' :: y) = s :: (ss ++ splitDots y) := by
              rw [ih, h]
              rfl
            simp [splitDots, if_neg hc, h2, h]

/-- A segment list containing the empty segment fails the all-segments
check. -/
theorem all_segOk_false (L : List (List Char)) (h : [] ∈ L) :
    L.all segOk = false := by
  cases hb : L.all segOk with
  | false => rfl
  | true =>
      have h2 := List.all_eq_true.mp hb _ h
      simp [segOk] at h2

/-- A key containing two adjacent dots keeps that shape after dropping one
trailing newline. -/
theorem stripNl_dotdot (L a b : List Char) (h : L = a ++ '.' :: '.' :: b) :
    ∃ a2 b2, stripNl L = a2 ++ '.' :: '.' :: b2 := by
  unfold stripNl
  cases hg : L.getLast? with
  | none => exact ⟨a, b, h⟩
  | some c =>
      by_cases hc : c = '\n'
      · rcases List.eq_nil_or_concat b with rfl | ⟨b2, d, rfl⟩
        · exfalso
          have hL : L = (a ++ ['.']) ++ ['.'] := by simp [h]
          have : L.getLast? = some '.' := by rw [hL]; exact List.getLast?_concat _
          rw [hg] at this
          have := Option.some.inj this
          rw [this] at hc
          simp at hc
        · refine ⟨a, b2, ?_⟩
          have hL : L = (a ++ '.' :: '.' :: b2) ++ [d] := by simp [h]
          have hstep : ('.' :: (b2 ++ [d])).dropLast = '.' :: b2 := by
            rw [show ('.' :: (b2 ++ [d])) = ('.' :: b2) ++ [d] by simp,
              List.dropLast_concat]
          simp [hc, hL, List.dropLast_concat, hstep]
      · exact ⟨a, b, by simp [hc, h]⟩

/-- A key starting with a dot still starts with a dot after dropping one
trailing newline. -/
theorem stripNl_leading (L b : List Char) (h : L = '.' :: b) :
    ∃ b2, stripNl L = '.' :: b2 := by
  unfold stripNl
  cases hg : L.getLast? with
  | none => exact ⟨b, h⟩
  | some c =>
      by_cases hc : c = '\n'
      · rcases List.eq_nil_or_concat b with rfl | ⟨b2, d, rfl⟩
        · exfalso
          have : L.getLast? = some '.' := by rw [h]; rfl
          rw [hg] at this
          have := Option.some.inj this
          rw [this] at hc
          simp at hc
        · refine ⟨b2, ?_⟩
          have hL : L = ('.' :: b2) ++ [d] := by simp [h]
          have hstep : ('.' :: (b2 ++ [d])).dropLast = '.' :: b2 := by
            rw [show ('.' :: (b2 ++ [d])) = ('.' :: b2) ++ [d] by simp,
              List.dropLast_concat]
          simp [hc, hL, List.dropLast_concat, hstep]
      · exact ⟨b, by simp [hc, h]⟩

/-- A key ending with a dot is unchanged by dropping one trailing
newline. -/
theorem stripNl_trailing (L a : List Char) (h : L = a ++ ['.']) :
    stripNl L = a ++ ['.'] := by
  unfold stripNl
  have hg : L.getLast? = some '.' := by rw [h]; exact List.getLast?_concat _
  rw [hg]
  simp [h]

/-- The key regex rejects keys with two adjacent dots. -/
theorem key_match_false_dotdot (key : String) (a b : List Char)
    (h : key.data = a ++ '.' :: '.' :: b) : key_regex_match key = false := by
  obtain ⟨a2, b2, h2⟩ := stripNl_dotdot key.data a b h
  unfold key_regex_match
  rw [h2]
  rw [show a2 ++ '.' :: '.' :: b2 = a2 ++ '.' :: ('.' :: b2) from rfl,
    splitDots_append_dot]
  apply all_segOk_false
  simp [splitDots]

/-- The key regex rejects keys with a leading dot. -/
theorem key_match_false_leading (key : String) (b : List Char)
    (h : key.data = '.' :: b) : key_regex_match key = false := by
  obtain ⟨b2, h2⟩ := stripNl_leading key.data b h
  unfold key_regex_match
  rw [h2]
  apply all_segOk_false
  simp [splitDots]

/-- The key regex rejects keys with a trailing dot. -/
theorem key_match_false_trailing (key : String) (a : List Char)
    (h : key.data = a ++ ['.']) : key_regex_match key = false := by
  have h2 := stripNl_trailing key.data a h
  unfold key_regex_match
  rw [h2, show a ++ ['.'] = a ++ '.' :: ([] : List Char) from rfl,
    splitDots_append_dot]
  apply all_segOk_false
  simp [splitDots]

/-- A key rejected by the regex makes validate false. -/
theorem validate_false_of_key_match_false (cv : ConfigurationValue)
    (h : key_regex_match cv.key = false) : cv.validate = false := by
  unfold ConfigurationValue.validate
  by_cases hk : cv.key = ""
  · simp [hk]
  · simp [hk, h]

/-- C9: validate returns false for every key with consecutive dots, a
leading dot or a trailing dot, and for every type outside the set of
string, number, boolean and json; it returns true for the instance with
key "a.b_c", value "x" and type "string". -/
theorem claim_C9_validate (cv : ConfigurationValue) :
    ((∃ a b, cv.key.data = a ++ '.' :: '.' :: b) → cv.validate = false) ∧
    ((∃ b, cv.key.data = '.' :: b) → cv.validate = false) ∧
    ((∃ a, cv.key.data = a ++ ['.']) → cv.validate = false) ∧
    (cv.type ∉ VALID_CONFIG_TYPES → cv.validate = false) ∧
    ConfigurationValue.validate ⟨"a.b_c", "x", "string", none, none, none⟩ = true := by
  refine ⟨?_, ?_, ?_, ?_, ?_⟩
  · rintro ⟨a, b, h⟩
    exact validate_false_of_key_match_false cv (key_match_false_dotdot cv.key a b h)
  · rintro ⟨b, h⟩
    exact validate_false_of_key_match_false cv (key_match_false_leading cv.key b h)
  · rintro ⟨a, h⟩
    exact validate_false_of_key_match_false cv (key_match_false_trailing cv.key a h)
  · intro ht
    have hc : VALID_CONFIG_TYPES.contains cv.type = false := by
      cases hb : VALID_CONFIG_TYPES.contains cv.type with
      | false => rfl
      | true => exact absurd (List.mem_of_elem_eq_true hb) ht
    unfold ConfigurationValue.validate
    by_cases hk : cv.key = ""
    · simp [hk]
    · by_cases hm : key_regex_match cv.key
      · by_cases hv : cv.value = ""
        · simp [hk, hm, hv]
        · simp [hk, hm, hv, hc]
          exact ht
      · simp [hk, hm]
  · rfl

/-- Witness for C9: the key ".." has consecutive dots and validate rejects
it, while the good instance passes. -/
theorem claim_C9_validate_wit :
    ConfigurationValue.validate ⟨"..", "v", "bogus", none, none, none⟩ = false ∧
    ConfigurationValue.validate ⟨"a.b_c", "x", "string", none, none, none⟩ = true :=
  ⟨(claim_C9_validate ⟨"..", "v", "bogus", none, none, none⟩).1 ⟨[], [], rfl⟩,
   (claim_C9_validate ⟨"..", "v", "bogus", none, none, none⟩).2.2.2.2⟩
